import Mathlib

/-!
Verification of the query-runner wrapper (src/query.py) against its
specification.  The Python class `QueryAthena` is shallowly embedded:

* the Athena service is an oracle supplying a submission outcome and a
  finite list of status records (one per `get_query_execution` poll);
* the blob store is a function from object key to a download outcome;
* the local filesystem is modelled as the list of file operations the
  code performs (create on successful download, remove in the
  `finally` clause), from which existence of the scratch file after the
  call is computed;
* pandas data frames are records of column names and row lists; chunked
  CSV reading is splitting the row list into blocks of the chunk size.
-/

namespace AthenaWrapper

/-- Opaque execution handle: the boto3 response of
`start_query_execution`, holding the `QueryExecutionId`. -/
structure Handle where
  queryExecutionId : String
deriving DecidableEq, Repr

/-- One status record returned by `get_query_execution`:
`State` together with `StateChangeReason`. -/
structure Status where
  state : String
  stateChangeReason : String
deriving DecidableEq, Repr

/-- Outcome of the `start_query_execution` service call: either a
response (handle) or a raised exception carrying a message. -/
inductive SubmitOutcome where
  | ok (h : Handle)
  | exn (msg : String)
deriving DecidableEq, Repr

/-- Embeds `QueryAthena.load_conf`: the `try` block returns the service
response; on any exception the handler prints and sets `response = None`,
which is returned. -/
def load_conf : SubmitOutcome → Option Handle
  | SubmitOutcome.ok h => some h
  | SubmitOutcome.exn _ => none

/-- Message of the exception raised by `run_query` on FAILED/CANCELLED,
mirroring the format string in the Python source. -/
def errMsg (query state reason : String) : String :=
  "Athena query with the string \"" ++ query ++ "\" stopped with status "
    ++ state ++ ". More details: " ++ reason

/-- Result of `run_query`.  `completed` carries the returned response
together with the number of `get_query_execution` fetches performed and
the number of `time.sleep(1)` calls executed; `raised` is the explicit
`raise Exception(...)`; `noneTypeError` is the TypeError raised by
subscripting `res["QueryExecutionId"]` when `res` is `None`;
`pendingExhausted` marks that the oracle ran out of status records while
the loop was still pending (the unbounded loop would poll again). -/
inductive RunResult where
  | completed (res : Handle) (fetches : Nat) (sleeps : Nat)
  | raised (msg : String) (fetches : Nat)
  | noneTypeError
  | pendingExhausted (fetches : Nat) (sleeps : Nat)
deriving DecidableEq, Repr

/-- Embeds the `while` loop of `run_query`.  Each iteration subscripts
`res` (TypeError if it is `None`), fetches the next status, raises on
FAILED/CANCELLED, breaks on SUCCEEDED, otherwise sleeps one time unit
and re-checks the loop condition: QUEUED/RUNNING continue, any other
state exits the loop and falls through to `return res`. -/
def pollLoop (q : String) (res : Option Handle) :
    List Status → Nat → Nat → RunResult
  | [], f, s =>
    match res with
    | none => RunResult.noneTypeError
    | some _ => RunResult.pendingExhausted f s
  | st :: rest, f, s =>
    match res with
    | none => RunResult.noneTypeError
    | some h =>
      if st.state = "FAILED" ∨ st.state = "CANCELLED" then
        RunResult.raised (errMsg q st.state st.stateChangeReason) (f + 1)
      else if st.state = "SUCCEEDED" then
        RunResult.completed h (f + 1) s
      else if st.state = "QUEUED" ∨ st.state = "RUNNING" then
        pollLoop q res rest (f + 1) (s + 1)
      else
        RunResult.completed h (f + 1) (s + 1)

/-- Embeds `QueryAthena.run_query`: submit via `load_conf`, then watch
the status until terminal, finally `return res`. -/
def run_query (q : String) (submit : SubmitOutcome)
    (statuses : List Status) : RunResult :=
  pollLoop q (load_conf submit) statuses 0 0

/-- The local scratch / object key computed in `process_result`:
`file_name = res['QueryExecutionId'] + '.csv'`. -/
def file_name (res : Handle) : String :=
  res.queryExecutionId ++ ".csv"

/-- A pandas data frame: named columns and an ordered list of rows. -/
structure DataFrame where
  columns : List String
  rows : List (List String)
deriving DecidableEq, Repr

/-- Embeds the static method `QueryAthena.chunk_processing`: returns the
chunk unmodified. -/
def chunk_processing (chunk : DataFrame) : DataFrame :=
  chunk

/-- Splits a list into consecutive blocks of `n` elements (the last one
possibly shorter), as `pd.read_csv(..., chunksize=n)` slices data rows.
Meaningful for `1 ≤ n`. -/
def chunkList (n : Nat) : List α → List (List α)
  | [] => []
  | x :: xs => (x :: xs).take n :: chunkList n (xs.drop (n - 1))
termination_by l => l.length
decreasing_by
  simp only [List.length_drop, List.length_cons]
  omega

/-- Embeds `pd.concat`: raises `ValueError` on an empty list of parts,
otherwise concatenates the parts' rows in order, keeping the columns. -/
def pd_concat : List DataFrame → Except String DataFrame
  | [] => Except.error "No objects to concatenate"
  | p :: ps =>
    Except.ok (DataFrame.mk p.columns (((p :: ps).map DataFrame.rows).flatten))

/-- Parsing behaviour of a downloaded blob under `pd.read_csv`:
a zero-byte file raises `EmptyDataError` when the reader is built;
well-formed CSV yields its header and data rows; malformed CSV raises a
parse error while iterating the chunks. -/
inductive BlobContent where
  | emptyFile
  | wellFormed (cols : List String) (rows : List (List String))
  | malformed (err : String)
deriving DecidableEq, Repr

/-- Outcome of `s3_client.download_file` for a key: the blob content, or
a `ClientError` with an error code (`"404"` is the not-found case). -/
inductive DownloadOutcome where
  | ok (content : BlobContent)
  | clientError (code : String)
deriving DecidableEq, Repr

/-- Data-row chunks produced by the pandas chunked reader.  With zero
data rows the reader still yields exactly one empty chunk: the parser
catches the first StopIteration and returns the header-only empty frame
(the same first-chunk handling that makes non-chunked `read_csv` on a
header-only file return an empty frame).  With at least one data row
the rows are split into blocks of the chunk size. -/
def csv_chunks (rows : List (List String)) : List (List (List String)) :=
  match rows with
  | [] => [[]]
  | r :: rs => chunkList 10000000 (r :: rs)

/-- Chunked `pd.read_csv` on downloaded content: either the list of
chunk data frames (all sharing the header columns) or a raised error. -/
def read_csv_chunks (content : BlobContent) : Except String (List DataFrame) :=
  match content with
  | BlobContent.emptyFile => Except.error "No columns to parse from file"
  | BlobContent.malformed e => Except.error e
  | BlobContent.wellFormed cols rows =>
    Except.ok ((csv_chunks rows).map (fun rs => DataFrame.mk cols rs))

/-- A filesystem operation performed on the local scratch location. -/
inductive FileOp where
  | create (nm : String)
  | remove (nm : String)
deriving DecidableEq, Repr

/-- Whether a file of the given name exists after replaying a list of
file operations (nothing exists beforehand). -/
def existsAfter (nm : String) (ops : List FileOp) : Bool :=
  ops.foldl
    (fun b op =>
      match op with
      | FileOp.create m => if m = nm then true else b
      | FileOp.remove m => if m = nm then false else b)
    false

/-- Outcome of `process_result`: the returned value (`none` embeds the
Python `return None`) or a propagated exception, together with the file
operations performed on the local filesystem. -/
structure ProcOutcome where
  result : Except String (Option DataFrame)
  fsOps : List FileOp
deriving Repr

/-- Embeds `QueryAthena.process_result`.  The key `file_name res` is
downloaded; a `ClientError` (404 or otherwise) is printed and `None` is
returned with no scratch file created.  On success the scratch file
exists, and the `try/finally` removes it on every exit of the parsing
block: `read_csv` raising, `pd.concat` raising on zero chunks, or the
normal return of the concatenated frame. -/
def process_result (res : Handle) (store : String → DownloadOutcome) :
    ProcOutcome :=
  match store (file_name res) with
  | DownloadOutcome.clientError _ =>
    ProcOutcome.mk (Except.ok none) []
  | DownloadOutcome.ok content =>
    let ops := [FileOp.create (file_name res), FileOp.remove (file_name res)]
    match read_csv_chunks content with
    | Except.error e => ProcOutcome.mk (Except.error e) ops
    | Except.ok chunks =>
      match pd_concat (chunks.map chunk_processing) with
      | Except.error e => ProcOutcome.mk (Except.error e) ops
      | Except.ok df => ProcOutcome.mk (Except.ok (some df)) ops

/-- Substring containment: `x` occurs contiguously inside `m`. -/
def containsStr (m x : String) : Prop :=
  ∃ a b, m = a ++ x ++ b

/-! Helper lemmas about the embedded operations. -/

theorem errMsg_contains_query (q st r : String) : containsStr (errMsg q st r) q :=
  ⟨"Athena query with the string \"",
   "\" stopped with status " ++ st ++ ". More details: " ++ r, by
    simp only [errMsg, String.append_assoc]⟩

theorem errMsg_contains_state (q st r : String) : containsStr (errMsg q st r) st :=
  ⟨"Athena query with the string \"" ++ q ++ "\" stopped with status ",
   ". More details: " ++ r, by
    simp only [errMsg, String.append_assoc]⟩

theorem errMsg_contains_reason (q st r : String) : containsStr (errMsg q st r) r :=
  ⟨"Athena query with the string \"" ++ q ++ "\" stopped with status "
     ++ st ++ ". More details: ", "", by
    simp only [errMsg, String.append_assoc, String.append_empty]⟩

theorem pollLoop_pending (q : String) (h : Handle) (st : Status)
    (rest : List Status) (f s : Nat)
    (hst : st.state = "QUEUED" ∨ st.state = "RUNNING") :
    pollLoop q (some h) (st :: rest) f s =
      pollLoop q (some h) rest (f + 1) (s + 1) := by
  rcases hst with h1 | h1 <;> simp [pollLoop, h1]

theorem pollLoop_pending_list (q : String) (h : Handle) (tail : List Status) :
    ∀ pre : List Status,
      (∀ st ∈ pre, st.state = "QUEUED" ∨ st.state = "RUNNING") →
      ∀ f s, pollLoop q (some h) (pre ++ tail) f s =
        pollLoop q (some h) tail (f + pre.length) (s + pre.length)
  | [], _, f, s => by simp
  | st :: pre2, hpre, f, s => by
    have h1 : st.state = "QUEUED" ∨ st.state = "RUNNING" := hpre st (by simp)
    have h2 : ∀ st2 ∈ pre2, st2.state = "QUEUED" ∨ st2.state = "RUNNING" :=
      fun st2 hm => hpre st2 (by simp [hm])
    rw [List.cons_append, pollLoop_pending q h st (pre2 ++ tail) f s h1,
      pollLoop_pending_list q h tail pre2 h2 (f + 1) (s + 1)]
    have e1 : f + 1 + pre2.length = f + (st :: pre2).length := by
      simp only [List.length_cons]
      omega
    have e2 : s + 1 + pre2.length = s + (st :: pre2).length := by
      simp only [List.length_cons]
      omega
    rw [e1, e2]

theorem pollLoop_raises (q : String) (h : Handle) (t : Status)
    (rest : List Status) (f s : Nat)
    (ht : t.state = "FAILED" ∨ t.state = "CANCELLED") :
    pollLoop q (some h) (t :: rest) f s =
      RunResult.raised (errMsg q t.state t.stateChangeReason) (f + 1) := by
  rcases ht with h1 | h1 <;> simp [pollLoop, h1]

theorem pollLoop_succeeds (q : String) (h : Handle) (t : Status)
    (rest : List Status) (f s : Nat) (ht : t.state = "SUCCEEDED") :
    pollLoop q (some h) (t :: rest) f s = RunResult.completed h (f + 1) s := by
  simp [pollLoop, ht]

theorem chunkList_flatten {α : Type} (n : Nat) (hn : 1 ≤ n) :
    ∀ l : List α, (chunkList n l).flatten = l
  | [] => by simp [chunkList]
  | x :: xs => by
    have hd : xs.drop (n - 1) = (x :: xs).drop n := by
      rcases n with - | m
      · omega
      · simp
    rw [chunkList, List.flatten_cons, chunkList_flatten n hn (xs.drop (n - 1)),
      hd, List.take_append_drop]
termination_by l => l.length
decreasing_by
  simp only [List.length_drop, List.length_cons]
  omega

theorem chunkList_length_le {α : Type} (n : Nat) :
    ∀ l : List α, ∀ c ∈ chunkList n l, c.length ≤ n
  | [] => by simp [chunkList]
  | x :: xs => by
    intro c hc
    rw [chunkList] at hc
    rcases List.mem_cons.mp hc with h1 | h1
    · subst h1
      simp only [List.length_take]
      omega
    · exact chunkList_length_le n (xs.drop (n - 1)) c h1
termination_by l => l.length
decreasing_by
  simp only [List.length_drop, List.length_cons]
  omega

theorem chunkList_ne_nil {α : Type} (n : Nat) (l : List α) (hl : l ≠ []) :
    chunkList n l ≠ [] := by
  rcases l with - | ⟨x, xs⟩
  · exact absurd rfl hl
  · rw [chunkList]
    exact List.cons_ne_nil _ _

theorem csv_chunks_flatten (rows : List (List String)) :
    (csv_chunks rows).flatten = rows := by
  rcases rows with - | ⟨r, rs⟩
  · rfl
  · exact chunkList_flatten 10000000 (by omega) (r :: rs)

theorem csv_chunks_ne_nil (rows : List (List String)) :
    csv_chunks rows ≠ [] := by
  rcases rows with - | ⟨r, rs⟩
  · simp [csv_chunks]
  · exact chunkList_ne_nil 10000000 (r :: rs) (List.cons_ne_nil r rs)

theorem csv_chunks_length_le (rows : List (List String)) :
    ∀ c ∈ csv_chunks rows, c.length ≤ 10000000 := by
  rcases rows with - | ⟨r, rs⟩
  · intro c hc
    simp only [csv_chunks, List.mem_singleton] at hc
    subst hc
    exact Nat.zero_le _
  · exact chunkList_length_le 10000000 (r :: rs)

theorem pd_concat_mk_cols (cols : List String) (c : List (List String))
    (cs : List (List (List String))) :
    pd_concat ((c :: cs).map (fun rs => DataFrame.mk cols rs)) =
      Except.ok (DataFrame.mk cols ((c :: cs).flatten)) := by
  simp [pd_concat, List.map_map, Function.comp_def]

theorem map_chunk_processing (l : List DataFrame) :
    l.map chunk_processing = l := by
  induction l with
  | nil => rfl
  | cons x xs ih => simp [chunk_processing, ih]

theorem process_result_scratch_removed (res : Handle)
    (store : String → DownloadOutcome) :
    existsAfter (file_name res) (process_result res store).fsOps = false := by
  unfold process_result
  rcases store (file_name res) with content | code
  · rcases hcc : read_csv_chunks content with e | chunks
    · simp [hcc, existsAfter]
    · rcases hpc : pd_concat (chunks.map chunk_processing) with e | df <;>
        simp [hcc, hpc, existsAfter]
  · simp [existsAfter]

/-! Claim theorems. -/

/-- C2: For the status sequence QUEUED, RUNNING, SUCCEEDED returned by
successive polls, `run_query` returns normally without raising after
exactly 3 status fetches (one per state), sleeping one fixed time unit
after each of the two non-terminal polls and not sleeping after
observing SUCCEEDED (3 fetches, 2 sleeps). -/
theorem claim_C2_three_polls (q : String) (h : Handle) (r1 r2 r3 : String) :
    run_query q (SubmitOutcome.ok h)
      [⟨"QUEUED", r1⟩, ⟨"RUNNING", r2⟩, ⟨"SUCCEEDED", r3⟩] =
      RunResult.completed h 3 2 := rfl

/-- C4: For every input on which the `start_query_execution` call raises
an exception, `load_conf` catches it and returns the absent handle
`none` to its caller instead of propagating the exception. -/
theorem claim_C4_submit_swallows (e : String) :
    load_conf (SubmitOutcome.exn e) = none := rfl

/-- C8: Whenever submission fails (`load_conf` returns `none`),
`run_query` does not surface the null handle as a value: subscripting
the absent response on the first loop iteration raises a TypeError, so
`run_query` never returns normally after a failed submission. -/
theorem claim_C8_null_handle_raises (q : String) (submit : SubmitOutcome)
    (statuses : List Status) (hnull : load_conf submit = none) :
    run_query q submit statuses = RunResult.noneTypeError ∧
      ∀ h f s, run_query q submit statuses ≠ RunResult.completed h f s := by
  have hmain : run_query q submit statuses = RunResult.noneTypeError := by
    rcases statuses with - | ⟨st, rest⟩ <;> simp [run_query, hnull, pollLoop]
  exact ⟨hmain, fun h f s hc => by
    rw [hmain] at hc
    exact RunResult.noConfusion hc⟩

/-- C8 witness: a concrete failed submission with one queued status. -/
theorem claim_C8_null_handle_raises_witness :
    load_conf (SubmitOutcome.exn "network failure") = none ∧
      run_query "SELECT 1" (SubmitOutcome.exn "network failure")
        [⟨"QUEUED", ""⟩] = RunResult.noneTypeError :=
  ⟨rfl, (claim_C8_null_handle_raises "SELECT 1"
    (SubmitOutcome.exn "network failure") [⟨"QUEUED", ""⟩] rfl).1⟩

/-- C9: For a poll returning a status string outside the vocabulary
QUEUED, RUNNING, SUCCEEDED, FAILED, CANCELLED, `run_query` sleeps once,
exits the poll loop, and returns the submission response as if the
query had succeeded, raising no error (1 fetch, 1 sleep, remaining
statuses never consulted). -/
theorem claim_C9_unknown_state_returns (q : String) (h : Handle)
    (st : Status) (rest : List Status)
    (hq : st.state ≠ "QUEUED") (hr : st.state ≠ "RUNNING")
    (hs : st.state ≠ "SUCCEEDED") (hf : st.state ≠ "FAILED")
    (hc : st.state ≠ "CANCELLED") :
    run_query q (SubmitOutcome.ok h) (st :: rest) =
      RunResult.completed h 1 1 := by
  simp [run_query, load_conf, pollLoop, hq, hr, hs, hf, hc]

/-- C9 witness: a concrete unrecognized state string. -/
theorem claim_C9_unknown_state_returns_witness :
    (Status.state ⟨"WEIRD", ""⟩ ≠ "QUEUED" ∧
        Status.state ⟨"WEIRD", ""⟩ ≠ "RUNNING" ∧
        Status.state ⟨"WEIRD", ""⟩ ≠ "SUCCEEDED" ∧
        Status.state ⟨"WEIRD", ""⟩ ≠ "FAILED" ∧
        Status.state ⟨"WEIRD", ""⟩ ≠ "CANCELLED") ∧
      run_query "SELECT 1" (SubmitOutcome.ok ⟨"qid"⟩)
        [⟨"WEIRD", ""⟩, ⟨"FAILED", "later"⟩] =
        RunResult.completed ⟨"qid"⟩ 1 1 :=
  ⟨⟨by decide, by decide, by decide, by decide, by decide⟩,
    claim_C9_unknown_state_returns "SELECT 1" ⟨"qid"⟩ ⟨"WEIRD", ""⟩
      [⟨"FAILED", "later"⟩] (by decide) (by decide) (by decide) (by decide)
      (by decide)⟩

/-- C1: For every poll sequence over the service state vocabulary whose
first terminal status is FAILED or CANCELLED (so every earlier status is
QUEUED or RUNNING), `run_query` raises an error whose message contains
the original query text, the terminal state name and the service
reason string, and does not return a handle. -/
theorem claim_C1_terminal_failure_raises (q : String) (h : Handle)
    (pre : List Status) (t : Status) (rest : List Status)
    (hpre : ∀ st ∈ pre, st.state = "QUEUED" ∨ st.state = "RUNNING")
    (ht : t.state = "FAILED" ∨ t.state = "CANCELLED") :
    run_query q (SubmitOutcome.ok h) (pre ++ t :: rest) =
        RunResult.raised (errMsg q t.state t.stateChangeReason)
          (pre.length + 1) ∧
      containsStr (errMsg q t.state t.stateChangeReason) q ∧
      containsStr (errMsg q t.state t.stateChangeReason) t.state ∧
      containsStr (errMsg q t.state t.stateChangeReason)
        t.stateChangeReason ∧
      ∀ h2 f s, run_query q (SubmitOutcome.ok h) (pre ++ t :: rest) ≠
        RunResult.completed h2 f s := by
  have hmain : run_query q (SubmitOutcome.ok h) (pre ++ t :: rest) =
      RunResult.raised (errMsg q t.state t.stateChangeReason)
        (pre.length + 1) := by
    show pollLoop q (some h) (pre ++ t :: rest) 0 0 = _
    rw [pollLoop_pending_list q h (t :: rest) pre hpre 0 0,
      pollLoop_raises q h t rest _ _ ht]
    simp
  refine ⟨hmain, errMsg_contains_query q t.state t.stateChangeReason,
    errMsg_contains_state q t.state t.stateChangeReason,
    errMsg_contains_reason q t.state t.stateChangeReason,
    fun h2 f s hc => ?_⟩
  rw [hmain] at hc
  exact RunResult.noConfusion hc

/-- C1 witness: one QUEUED poll followed by FAILED with a concrete
reason; `run_query` raises the descriptive error after 2 fetches. -/
theorem claim_C1_terminal_failure_raises_witness :
    run_query "SELECT 1" (SubmitOutcome.ok ⟨"qid"⟩)
        [⟨"QUEUED", ""⟩, ⟨"FAILED", "Insufficient permissions"⟩] =
      RunResult.raised
        (errMsg "SELECT 1" "FAILED" "Insufficient permissions") 2 :=
  (claim_C1_terminal_failure_raises "SELECT 1" ⟨"qid"⟩ [⟨"QUEUED", ""⟩]
    ⟨"FAILED", "Insufficient permissions"⟩ [] (by decide) (by decide)).1

/-- C7: For every run over the state vocabulary that reaches SUCCEEDED,
`run_query` returns the exact handle object produced at submission,
unchanged, and downstream `process_result` derives the blob key from
that same handle as its QueryExecutionId followed by ".csv", consulting
the blob store only at that key. -/
theorem claim_C7_same_handle_and_key (q : String) (h : Handle)
    (pre : List Status) (t : Status) (rest : List Status)
    (hpre : ∀ st ∈ pre, st.state = "QUEUED" ∨ st.state = "RUNNING")
    (ht : t.state = "SUCCEEDED") :
    run_query q (SubmitOutcome.ok h) (pre ++ t :: rest) =
        RunResult.completed h (pre.length + 1) pre.length ∧
      file_name h = h.queryExecutionId ++ ".csv" ∧
      ∀ store1 store2 : String → DownloadOutcome,
        store1 (file_name h) = store2 (file_name h) →
        process_result h store1 = process_result h store2 := by
  refine ⟨?_, rfl, fun store1 store2 hs => ?_⟩
  · show pollLoop q (some h) (pre ++ t :: rest) 0 0 = _
    rw [pollLoop_pending_list q h (t :: rest) pre hpre 0 0,
      pollLoop_succeeds q h t rest _ _ ht]
    simp
  · unfold process_result
    rw [hs]

/-- C7 witness: a RUNNING poll then SUCCEEDED; the submitted handle is
returned unchanged and its blob key is its id followed by ".csv". -/
theorem claim_C7_same_handle_and_key_witness :
    run_query "SELECT 1" (SubmitOutcome.ok ⟨"abc123"⟩)
        [⟨"RUNNING", ""⟩, ⟨"SUCCEEDED", ""⟩] =
      RunResult.completed ⟨"abc123"⟩ 2 1 ∧
      file_name ⟨"abc123"⟩ = "abc123.csv" :=
  ⟨(claim_C7_same_handle_and_key "SELECT 1" ⟨"abc123"⟩ [⟨"RUNNING", ""⟩]
      ⟨"SUCCEEDED", ""⟩ [] (by decide) (by decide)).1,
    by decide⟩

/-- C3 counterexample: when the download of the result blob fails with
the not-found ClientError code "404", `process_result` does not return
an empty zero-row table; it returns the absent value `None`. -/
theorem claim_C3_counterexample_returns_none :
    ¬ ∃ df : DataFrame,
      (process_result ⟨"qid"⟩
          (fun _ => DownloadOutcome.clientError "404")).result =
        Except.ok (some df) ∧ df.rows.length = 0 := by
  rintro ⟨df, hdf, -⟩
  simp [process_result] at hdf

/-- C3 (amended): For every execution handle whose result blob download
fails with the not-found condition (ClientError code "404"),
`process_result` returns the absent result `None` — not a table — to
its caller, does not raise, and creates no scratch file. -/
theorem claim_C3_notfound_returns_absent (res : Handle)
    (store : String → DownloadOutcome)
    (hnf : store (file_name res) = DownloadOutcome.clientError "404") :
    (process_result res store).result = Except.ok none ∧
      (process_result res store).fsOps = [] := by
  unfold process_result
  rw [hnf]
  exact ⟨rfl, rfl⟩

/-- C3 witness: a concrete store answering 404 for every key. -/
theorem claim_C3_notfound_returns_absent_witness :
    (process_result ⟨"qid2"⟩
        (fun _ => DownloadOutcome.clientError "404")).result =
      Except.ok none :=
  (claim_C3_notfound_returns_absent ⟨"qid2"⟩
    (fun _ => DownloadOutcome.clientError "404") rfl).1

/-- C5: For every successfully downloaded result blob, after
`process_result` exits — normally or through a parse error raised
mid-stream — the local scratch file named by the handle no longer
exists; and in the parse-error case the error propagates to the caller
rather than being swallowed. -/
theorem claim_C5_cleanup_and_parse_error (res : Handle)
    (store : String → DownloadOutcome) (content : BlobContent) (e : String)
    (hdl : store (file_name res) = DownloadOutcome.ok content) :
    existsAfter (file_name res) (process_result res store).fsOps = false ∧
      (content = BlobContent.malformed e →
        (process_result res store).result = Except.error e) := by
  refine ⟨process_result_scratch_removed res store, fun hmal => ?_⟩
  subst hmal
  unfold process_result
  rw [hdl]
  rfl

/-- C5 witness: a blob that raises a concrete parse error mid-stream;
the scratch file is gone and the error propagates. -/
theorem claim_C5_cleanup_and_parse_error_witness :
    existsAfter (file_name ⟨"qid3"⟩)
        (process_result ⟨"qid3"⟩
          (fun _ => DownloadOutcome.ok
            (BlobContent.malformed "bad record"))).fsOps = false ∧
      (process_result ⟨"qid3"⟩
          (fun _ => DownloadOutcome.ok
            (BlobContent.malformed "bad record"))).result =
        Except.error "bad record" :=
  ⟨(claim_C5_cleanup_and_parse_error ⟨"qid3"⟩
      (fun _ => DownloadOutcome.ok (BlobContent.malformed "bad record"))
      (BlobContent.malformed "bad record") "bad record" rfl).1,
    (claim_C5_cleanup_and_parse_error ⟨"qid3"⟩
      (fun _ => DownloadOutcome.ok (BlobContent.malformed "bad record"))
      (BlobContent.malformed "bad record") "bad record" rfl).2 rfl⟩

/-- C6: For every successfully parsed result blob, split into chunks of
at most 10,000,000 data rows each (one empty chunk when there are zero
data rows), the default per-chunk transform returns each chunk
unchanged, and `process_result` assembles the table by concatenating
the chunks in original read order, with total row count equal to the
sum of the chunk sizes (which is the original row count). -/
theorem claim_C6_chunked_assembly (res : Handle)
    (store : String → DownloadOutcome) (cols : List String)
    (rows : List (List String))
    (hdl : store (file_name res) =
      DownloadOutcome.ok (BlobContent.wellFormed cols rows)) :
    (∀ chunk, chunk_processing chunk = chunk) ∧
      (∀ c ∈ csv_chunks rows, c.length ≤ 10000000) ∧
      (process_result res store).result =
        Except.ok (some
          (DataFrame.mk cols ((csv_chunks rows).flatten))) ∧
      (csv_chunks rows).flatten = rows ∧
      ((csv_chunks rows).map List.length).sum = rows.length := by
  have hflat : (csv_chunks rows).flatten = rows := csv_chunks_flatten rows
  have hsum : ((csv_chunks rows).map List.length).sum = rows.length := by
    rw [← List.length_flatten, hflat]
  refine ⟨fun chunk => rfl, csv_chunks_length_le rows, ?_, hflat, hsum⟩
  obtain ⟨c, cs, hcc⟩ :=
    List.exists_cons_of_ne_nil (csv_chunks_ne_nil rows)
  have hpd : pd_concat
      (((csv_chunks rows).map
        (fun rs => DataFrame.mk cols rs)).map chunk_processing) =
      Except.ok (DataFrame.mk cols ((csv_chunks rows).flatten)) := by
    rw [map_chunk_processing, hcc, pd_concat_mk_cols]
  unfold process_result
  rw [hdl]
  show (match pd_concat
      (((csv_chunks rows).map
        (fun rs => DataFrame.mk cols rs)).map chunk_processing) with
    | Except.error e =>
      ProcOutcome.mk (Except.error e)
        [FileOp.create (file_name res), FileOp.remove (file_name res)]
    | Except.ok df =>
      ProcOutcome.mk (Except.ok (some df))
        [FileOp.create (file_name res),
          FileOp.remove (file_name res)]).result = _
  rw [hpd]

/-- C6 witness: a two-row CSV assembles to the same two rows in order. -/
theorem claim_C6_chunked_assembly_witness :
    (process_result ⟨"qid4"⟩
        (fun _ => DownloadOutcome.ok (BlobContent.wellFormed ["a", "b"]
          [["1", "2"], ["3", "4"]]))).result =
      Except.ok (some (DataFrame.mk ["a", "b"] [["1", "2"], ["3", "4"]])) := by
  obtain ⟨-, -, h3, h4, -⟩ := claim_C6_chunked_assembly ⟨"qid4"⟩
    (fun _ => DownloadOutcome.ok (BlobContent.wellFormed ["a", "b"]
      [["1", "2"], ["3", "4"]]))
    ["a", "b"] [["1", "2"], ["3", "4"]] rfl
  rw [h4] at h3
  exact h3

/-- C10 counterexample: a header-only CSV with zero data rows does not
make `process_result` raise; the chunked reader yields one empty chunk,
`pd.concat` succeeds, and an empty zero-row table is returned — the
very outcome the claim said is replaced by an error. -/
theorem claim_C10_counterexample_header_only :
    (process_result ⟨"qid6"⟩
        (fun _ => DownloadOutcome.ok
          (BlobContent.wellFormed ["a", "b"] []))).result =
      Except.ok (some (DataFrame.mk ["a", "b"] [])) := rfl

/-- C10 (amended): For a result blob that downloads successfully but is
a zero-byte file, `process_result` raises pandas EmptyDataError; for a
header-only CSV with zero data rows it instead returns an empty
zero-row table, because the chunked reader yields one empty chunk and
`pd.concat` succeeds.  In both cases the scratch file is removed. -/
theorem claim_C10_zero_rows_behavior (res : Handle)
    (store1 store2 : String → DownloadOutcome) (cols : List String)
    (hempty : store1 (file_name res) =
      DownloadOutcome.ok BlobContent.emptyFile)
    (hheader : store2 (file_name res) =
      DownloadOutcome.ok (BlobContent.wellFormed cols [])) :
    (process_result res store1).result =
        Except.error "No columns to parse from file" ∧
      existsAfter (file_name res) (process_result res store1).fsOps = false ∧
      (process_result res store2).result =
        Except.ok (some (DataFrame.mk cols [])) ∧
      existsAfter (file_name res) (process_result res store2).fsOps = false := by
  refine ⟨?_, process_result_scratch_removed res store1, ?_,
    process_result_scratch_removed res store2⟩
  · unfold process_result
    rw [hempty]
    rfl
  · unfold process_result
    rw [hheader]
    rfl

/-- C10 witness: a concrete empty blob raises while a concrete
header-only blob yields the empty zero-row table. -/
theorem claim_C10_zero_rows_behavior_witness :
    (process_result ⟨"qid5"⟩
        (fun _ => DownloadOutcome.ok BlobContent.emptyFile)).result =
      Except.error "No columns to parse from file" ∧
      (process_result ⟨"qid5"⟩
        (fun _ => DownloadOutcome.ok
          (BlobContent.wellFormed ["a", "b"] []))).result =
      Except.ok (some (DataFrame.mk ["a", "b"] [])) := by
  obtain ⟨h1, -, h3, -⟩ := claim_C10_zero_rows_behavior ⟨"qid5"⟩
    (fun _ => DownloadOutcome.ok BlobContent.emptyFile)
    (fun _ => DownloadOutcome.ok (BlobContent.wellFormed ["a", "b"] []))
    ["a", "b"] rfl rfl
  exact ⟨h1, h3⟩

end AthenaWrapper
